import Mathlib

/-!
Shallow embedding of the Tuya climate adapter
(`homeassistant/components/tuya/climate.py`) together with the data-point
resolution and unit-conversion layer it relies on.  The climate module is
embedded from its source; the helper module (`base.py`) and the Tuya constant
definitions are not part of this source tree, so those pieces are modelled
from the specification, each marked as such in its doc comment.
-/

/-- Raw value of a data point in a device status snapshot: the adapter only
ever meets booleans, integers and strings. -/
inductive RawValue where
  | bool (b : Bool)
  | int (n : Int)
  | str (s : String)
deriving DecidableEq, Repr

/-- Truthiness of a raw value, matching Python truthiness for the three
value shapes that occur in a status snapshot. -/
def RawValue.truthy : RawValue → Bool
  | .bool b => b
  | .int n => n != 0
  | .str s => s != ""

/-- Truthiness of an optional raw value: an absent value is falsy, as for
Python `dict.get` returning `None`. -/
def truthyOpt : Option RawValue → Bool
  | none => false
  | some v => v.truthy

/-- Numeric reading of a raw value, as Python arithmetic would coerce it
(booleans count as 0/1); a string is not numeric and is outside the
modelled domain of the numeric getters. -/
def RawValue.toRat : RawValue → Option ℚ
  | .bool b => some (if b then 1 else 0)
  | .int n => some (n : ℚ)
  | .str _ => none

/-- String reading of a raw value; only genuine strings can equal a key of
the vendor-to-host mode translation table. -/
def RawValue.asStr : RawValue → Option String
  | .str s => some s
  | _ => none

/-- Declared type tag of a data point (`DPType` in the Tuya constants). -/
inductive DPType where
  | boolean
  | integer
  | enum
  | string
  | json
deriving DecidableEq, Repr

/-- Modelled from the spec (§3, the constants module is not in this source
tree): integer-typed data-point metadata with raw range, power-of-ten scale,
raw step, and the base constant (10) used by the scale-0 quirk. -/
structure IntegerTypeData where
  dpcode : String
  min : Int
  max : Int
  scale : Nat
  step : Int
  base_value : ℚ
deriving DecidableEq, Repr

/-- Modelled from the spec (§4.2): `scale_value raw = raw / 10^scale`. -/
def IntegerTypeData.scale_value (t : IntegerTypeData) (v : ℚ) : ℚ :=
  v / (10 : ℚ) ^ t.scale

/-- Modelled from the spec (§4.2): inverse of `scale_value`, rounding to the
nearest raw integer consistent with `step` before transmission. -/
def IntegerTypeData.scale_value_back (t : IntegerTypeData) (v : ℚ) : Int :=
  t.step * round (v * (10 : ℚ) ^ t.scale / (t.step : ℚ))

/-- Scaled minimum of an integer data point. -/
def IntegerTypeData.min_scaled (t : IntegerTypeData) : ℚ :=
  t.scale_value (t.min : ℚ)

/-- Scaled maximum of an integer data point. -/
def IntegerTypeData.max_scaled (t : IntegerTypeData) : ℚ :=
  t.scale_value (t.max : ℚ)

/-- Scaled step of an integer data point. -/
def IntegerTypeData.step_scaled (t : IntegerTypeData) : ℚ :=
  t.scale_value (t.step : ℚ)

/-- Modelled from the spec (§3): enum-typed data-point metadata with its
ordered set of permitted string values. -/
structure EnumTypeData where
  dpcode : String
  range : List String
deriving DecidableEq, Repr

/-- Declared data-point descriptor: the type tag together with the refined
metadata for integer and enum data points. -/
inductive DPTypeData where
  | integer (t : IntegerTypeData)
  | enum (e : EnumTypeData)
  | boolean
  | string
  | json
deriving DecidableEq, Repr

/-- Type tag of a declared descriptor. -/
def DPTypeData.dptype : DPTypeData → DPType
  | .integer _ => .integer
  | .enum _ => .enum
  | .boolean => .boolean
  | .string => .string
  | .json => .json

/-- Device object as seen by the adapter: category, live status snapshot,
writable declarations (`function`) and read-only declarations
(`status_range`), each an association list keyed by data-point identifier. -/
structure TuyaDevice where
  category : String
  status : List (String × RawValue)
  function : List (String × DPTypeData)
  status_range : List (String × DPTypeData)
deriving Repr

/-- Live status snapshot lookup (`device.status.get(code)`). -/
def TuyaDevice.statusGet (d : TuyaDevice) (code : String) : Option RawValue :=
  d.status.lookup code

/-- Membership of a data-point identifier in the status snapshot keys
(`code in device.status`). -/
def TuyaDevice.statusHas (d : TuyaDevice) (code : String) : Bool :=
  (d.status.lookup code).isSome

/-- Membership of a data-point identifier in the writable declarations
(`code in device.function`). -/
def TuyaDevice.functionHas (d : TuyaDevice) (code : String) : Bool :=
  (d.function.lookup code).isSome

/-- Whether a declared descriptor matches a requested type tag; no requested
tag matches every declaration. -/
def matchesType (dptype : Option DPType) (td : DPTypeData) : Bool :=
  match dptype with
  | none => true
  | some ty => td.dptype == ty

/-- Declaration of a candidate in one declaration set, kept only when its
type matches the requested tag. -/
def findInSource (src : List (String × DPTypeData)) (code : String)
    (dptype : Option DPType) : Option DPTypeData :=
  match src.lookup code with
  | some td => if matchesType dptype td then some td else none
  | none => none

/-- Modelled from the spec (§4.1, the resolver lives in the helper module
that is not in this source tree): try one candidate against the writable and
read-only declaration sets, writable first exactly when `prefer_function`,
returning the first declaration whose type matches. -/
def findInDevice (d : TuyaDevice) (code : String) (dptype : Option DPType)
    (prefer_function : Bool) : Option DPTypeData :=
  let first := if prefer_function then d.function else d.status_range
  let second := if prefer_function then d.status_range else d.function
  (findInSource first code dptype).orElse
    (fun _ => findInSource second code dptype)

/-- Modelled from the spec (§4.1): candidates are tried in order and the
first candidate declared with a matching type wins; candidate order
dominates the writable-versus-read-only preference. -/
def find_dpcode (d : TuyaDevice) (dpcodes : List String) (dptype : Option DPType)
    (prefer_function : Bool) : Option DPTypeData :=
  match dpcodes with
  | [] => none
  | c :: rest =>
    match findInDevice d c dptype prefer_function with
    | some td => some td
    | none => find_dpcode d rest dptype prefer_function

/-- Resolver specialised to integer data points, as `find_dpcode` with
`dptype=DPType.INTEGER` is used by the adapter. -/
def find_int (d : TuyaDevice) (dpcodes : List String) (prefer_function : Bool) :
    Option IntegerTypeData :=
  match find_dpcode d dpcodes (some .integer) prefer_function with
  | some (.integer t) => some t
  | _ => none

/-- Resolver specialised to enum data points, as `find_dpcode` with
`dptype=DPType.ENUM` is used by the adapter. -/
def find_enum (d : TuyaDevice) (dpcodes : List String) (prefer_function : Bool) :
    Option EnumTypeData :=
  match find_dpcode d dpcodes (some .enum) prefer_function with
  | some (.enum e) => some e
  | _ => none

/-- Modelled from the spec (the Tuya constants module is not in this source
tree): data-point identifiers used by the climate adapter; `DPCode` members
are lowercase identifier strings (the spec §8 names `temp_set` and
`temp_set_f` explicitly). -/
def DPCode.SWITCH : String := "switch"

/-- Data-point identifier for the HVAC mode enum. -/
def DPCode.MODE : String := "mode"

/-- Data-point identifier for the current temperature in Celsius. -/
def DPCode.TEMP_CURRENT : String := "temp_current"

/-- Data-point identifier for the current temperature in Fahrenheit. -/
def DPCode.TEMP_CURRENT_F : String := "temp_current_f"

/-- Alternate data-point identifier for the current temperature. -/
def DPCode.UPPER_TEMP : String := "upper_temp"

/-- Alternate data-point identifier for the current Fahrenheit temperature. -/
def DPCode.UPPER_TEMP_F : String := "upper_temp_f"

/-- Data-point identifier for the target temperature in Celsius. -/
def DPCode.TEMP_SET : String := "temp_set"

/-- Data-point identifier for the target temperature in Fahrenheit. -/
def DPCode.TEMP_SET_F : String := "temp_set_f"

/-- Data-point identifier for the Celsius/Fahrenheit unit selector. -/
def DPCode.C_F : String := "c_f"

/-- Data-point identifier for the temperature unit conversion selector. -/
def DPCode.TEMP_UNIT_CONVERT : String := "temp_unit_convert"

/-- Data-point identifier for the target humidity. -/
def DPCode.HUMIDITY_SET : String := "humidity_set"

/-- Data-point identifier for the current humidity. -/
def DPCode.HUMIDITY_CURRENT : String := "humidity_current"

/-- Data-point identifier for the fan speed enum. -/
def DPCode.FAN_SPEED_ENUM : String := "fan_speed_enum"

/-- Alternate data-point identifier for the fan speed. -/
def DPCode.WINDSPEED : String := "windspeed"

/-- Data-point identifier for the shake swing switch. -/
def DPCode.SHAKE : String := "shake"

/-- Data-point identifier for the swing switch. -/
def DPCode.SWING : String := "swing"

/-- Data-point identifier for the horizontal swing switch. -/
def DPCode.SWITCH_HORIZONTAL : String := "switch_horizontal"

/-- Data-point identifier for the vertical swing switch. -/
def DPCode.SWITCH_VERTICAL : String := "switch_vertical"

/-- Data-point identifier for the eco preset switch. -/
def DPCode.ECO : String := "eco"

/-- Modelled from the spec (the helper module defining the
instruction-type-dependent identifier remapping is not in this source tree;
the spec addresses data points by their identifier directly and describes no
remapping), so the remapping helper is the identity on identifiers. -/
def get_right_dpcode (code : String) : String := code

/-- Host framework HVAC mode vocabulary (`HVACMode` of the climate
component). -/
inductive HVACMode where
  | off
  | heat
  | cool
  | heat_cool
  | auto
  | dry
  | fan_only
deriving DecidableEq, Repr

/-- Host framework preset string `PRESET_NONE`. -/
def PRESET_NONE : String := "none"

/-- Host framework preset string `PRESET_ECO`. -/
def PRESET_ECO : String := "eco"

/-- Host framework swing string `SWING_ON`. -/
def SWING_ON : String := "on"

/-- Host framework swing string `SWING_OFF`. -/
def SWING_OFF : String := "off"

/-- Host framework swing string `SWING_BOTH`. -/
def SWING_BOTH : String := "both"

/-- Host framework swing string `SWING_HORIZONTAL`. -/
def SWING_HORIZONTAL : String := "horizontal"

/-- Host framework swing string `SWING_VERTICAL`. -/
def SWING_VERTICAL : String := "vertical"

/-- Vendor-to-host HVAC mode translation table `TUYA_HVAC_TO_HA`
(climate.py lines 33-42). -/
def TUYA_HVAC_TO_HA : List (String × HVACMode) :=
  [("auto", .heat_cool),
   ("cold", .cool),
   ("freeze", .cool),
   ("heat", .heat),
   ("hot", .heat),
   ("manual", .heat_cool),
   ("wet", .dry),
   ("wind", .fan_only)]

/-- Lookup in the vendor-to-host translation table (`TUYA_HVAC_TO_HA[mode]`
guarded by `mode in TUYA_HVAC_TO_HA`). -/
def tuyaToHa (mode : String) : Option HVACMode :=
  TUYA_HVAC_TO_HA.lookup mode

/-- Entity description for one supported device category: its key and the
single fallback HVAC mode used for switch-only devices
(`TuyaClimateEntityDescription`). -/
structure TuyaClimateEntityDescription where
  key : String
  switch_only_hvac_mode : HVACMode
deriving DecidableEq, Repr

/-- Supported device categories and their fallback HVAC modes
(`CLIMATE_DESCRIPTIONS`, climate.py lines 59-90). -/
def CLIMATE_DESCRIPTIONS : List (String × TuyaClimateEntityDescription) :=
  [("kt", ⟨"kt", .cool⟩),
   ("qn", ⟨"qn", .heat⟩),
   ("rs", ⟨"rs", .heat⟩),
   ("wk", ⟨"wk", .heat_cool⟩),
   ("wkf", ⟨"wkf", .heat⟩)]

/-- Climate entity feature flags accumulated at construction
(`ClimateEntityFeature`). -/
inductive ClimateEntityFeature where
  | TARGET_TEMPERATURE
  | PRESET_MODE
  | TARGET_HUMIDITY
  | FAN_MODE
  | SWING_MODE
deriving DecidableEq, Repr

/-- Temperature unit chosen by the adapter. -/
inductive TempUnit where
  | celsius
  | fahrenheit
deriving DecidableEq, Repr

/-- Dictionary-style assignment on an association list
(`d[k] = v`: a later assignment overwrites an earlier one, order of first
insertion kept). -/
def assocSet (l : List (HVACMode × String)) (k : HVACMode) (v : String) :
    List (HVACMode × String) :=
  match l with
  | [] => [(k, v)]
  | (k0, v0) :: rest =>
    if k0 = k then (k, v) :: rest else (k0, v0) :: assocSet rest k v

/-- Truncation toward zero, as Python `int()` applied to a number. -/
def intTrunc (q : ℚ) : Int := if 0 ≤ q then ⌊q⌋ else ⌈q⌉

/-- One step of the constructor's loop over the permitted mode enum values
(climate.py lines 241-247): a value with a translation is appended to the
supported-mode list and its reverse mapping recorded, the others are
collected as unknown modes.  The accumulator is
(supported modes, reverse mapping, unknown modes). -/
def hvacFoldStep (acc : List HVACMode × List (HVACMode × String) × List String)
    (tuya_mode : String) :
    List HVACMode × List (HVACMode × String) × List String :=
  match tuyaToHa tuya_mode with
  | some ha_mode =>
    (acc.1 ++ [ha_mode], assocSet acc.2.1 ha_mode tuya_mode, acc.2.2)
  | none => (acc.1, acc.2.1, acc.2.2 ++ [tuya_mode])

/-- Whether one of the unit-selector data points carries a string status
value whose lowercase form contains the letter f (climate.py lines
165-172). -/
def unitStringIndicatesF (d : TuyaDevice) : Bool :=
  [get_right_dpcode DPCode.C_F, get_right_dpcode DPCode.TEMP_UNIT_CONVERT].any
    fun code =>
      match d.statusGet code with
      | some (.str s) => s.toLower.contains 'f'
      | _ => false

/-- Preferred temperature unit (climate.py lines 150-173): only decided when
both the Celsius and the Fahrenheit data point are in the status snapshot
for the current or for the target temperature; then Fahrenheit when a unit
selector says so, Celsius otherwise. -/
def preferredTempUnit (d : TuyaDevice) : Option TempUnit :=
  if (d.statusHas (get_right_dpcode DPCode.TEMP_CURRENT) &&
        d.statusHas (get_right_dpcode DPCode.TEMP_CURRENT_F)) ||
      (d.statusHas (get_right_dpcode DPCode.TEMP_SET) &&
        d.statusHas (get_right_dpcode DPCode.TEMP_SET_F)) then
    if unitStringIndicatesF d then some .fahrenheit else some .celsius
  else
    none

/-- Fixed per-instance state of a climate entity, as computed once by the
constructor and then only read by the property getters and setters. -/
structure TuyaClimateEntity where
  entity_description : TuyaClimateEntityDescription
  _attr_temperature_unit : TempUnit
  _current_temperature : Option IntegerTypeData
  _set_temperature : Option IntegerTypeData
  _set_humidity : Option IntegerTypeData
  _current_humidity : Option IntegerTypeData
  _attr_hvac_modes : List HVACMode
  _hvac_to_tuya : List (HVACMode × String)
  _attr_preset_modes : Option (List String)
  _attr_fan_modes : Option (List String)
  _attr_swing_modes : Option (List String)
  _attr_supported_features : List ClimateEntityFeature
  _attr_max_temp : Option ℚ
  _attr_min_temp : Option ℚ
  _attr_target_temperature_step : ℚ
  _attr_min_humidity : Option Int
  _attr_max_humidity : Option Int
deriving Repr

/-- Constructor of the climate entity (climate.py lines 134-308): resolves
every binding once from the device declarations and fixes the entity
state. -/
def TuyaClimateEntity.init (device : TuyaDevice)
    (description : TuyaClimateEntityDescription) : TuyaClimateEntity :=
  let prefered := preferredTempUnit device
  let celsius_cur := find_int device
    [get_right_dpcode DPCode.TEMP_CURRENT, get_right_dpcode DPCode.UPPER_TEMP]
    false
  let fahrenheit_cur := find_int device
    [get_right_dpcode DPCode.TEMP_CURRENT_F,
      get_right_dpcode DPCode.UPPER_TEMP_F] false
  let unitAndCurrent :=
    if fahrenheit_cur.isSome &&
        (prefered == some .fahrenheit ||
          (prefered == some .celsius && celsius_cur.isNone)) then
      (TempUnit.fahrenheit, fahrenheit_cur)
    else if celsius_cur.isSome then
      (TempUnit.celsius, celsius_cur)
    else
      (TempUnit.celsius, none)
  let celsius_set := find_int device [get_right_dpcode DPCode.TEMP_SET] true
  let fahrenheit_set := find_int device [get_right_dpcode DPCode.TEMP_SET_F]
    true
  let _set_temperature :=
    if fahrenheit_set.isSome &&
        (prefered == some .fahrenheit ||
          (prefered == some .celsius && celsius_set.isNone)) then
      fahrenheit_set
    else if celsius_set.isSome then
      celsius_set
    else
      none
  let modeEnum := find_enum device [get_right_dpcode DPCode.MODE] true
  let modeFold : List HVACMode × List (HVACMode × String) × List String :=
    match modeEnum with
    | some enum_type =>
      enum_type.range.foldl hvacFoldStep ([HVACMode.off], [], [])
    | none => ([], [], [])
  let unknown_hvac_modes := modeFold.2.2
  let _attr_hvac_modes :=
    match modeEnum with
    | some _ =>
      if unknown_hvac_modes.isEmpty then modeFold.1
      else modeFold.1 ++ [description.switch_only_hvac_mode]
    | none =>
      if (find_dpcode device [get_right_dpcode DPCode.SWITCH] none
          true).isSome then
        [HVACMode.off, description.switch_only_hvac_mode]
      else []
  let _attr_preset_modes :=
    match modeEnum with
    | some _ =>
      if unknown_hvac_modes.isEmpty then none else some unknown_hvac_modes
    | none => none
  let humidity_set := find_int device [get_right_dpcode DPCode.HUMIDITY_SET]
    true
  let _current_humidity := find_int device
    [get_right_dpcode DPCode.HUMIDITY_CURRENT] false
  let fanEnum := find_enum device
    [get_right_dpcode DPCode.FAN_SPEED_ENUM, get_right_dpcode DPCode.WINDSPEED]
    true
  let swingFound := (find_dpcode device
    [get_right_dpcode DPCode.SHAKE, get_right_dpcode DPCode.SWING,
      get_right_dpcode DPCode.SWITCH_HORIZONTAL,
      get_right_dpcode DPCode.SWITCH_VERTICAL] none true).isSome
  let _attr_swing_modes :=
    if swingFound then
      some ([SWING_OFF]
        ++ (if (find_dpcode device [DPCode.SHAKE, DPCode.SWING] none
            true).isSome then [SWING_ON] else [])
        ++ (if (find_dpcode device [DPCode.SWITCH_HORIZONTAL] none
            true).isSome then [SWING_HORIZONTAL] else [])
        ++ (if (find_dpcode device [DPCode.SWITCH_VERTICAL] none
            true).isSome then [SWING_VERTICAL] else []))
    else none
  let _attr_supported_features :=
    (if _set_temperature.isSome then
      [ClimateEntityFeature.TARGET_TEMPERATURE, ClimateEntityFeature.PRESET_MODE]
    else [])
    ++ (if modeEnum.isSome && !unknown_hvac_modes.isEmpty then
      [ClimateEntityFeature.PRESET_MODE] else [])
    ++ (if humidity_set.isSome then [ClimateEntityFeature.TARGET_HUMIDITY]
      else [])
    ++ (if fanEnum.isSome then [ClimateEntityFeature.FAN_MODE] else [])
    ++ (if swingFound then [ClimateEntityFeature.SWING_MODE] else [])
  { entity_description := description
    _attr_temperature_unit := unitAndCurrent.1
    _current_temperature := unitAndCurrent.2
    _set_temperature := _set_temperature
    _set_humidity := humidity_set
    _current_humidity := _current_humidity
    _attr_hvac_modes := _attr_hvac_modes
    _hvac_to_tuya := modeFold.2.1
    _attr_preset_modes := _attr_preset_modes
    _attr_fan_modes := if fanEnum.isSome then fanEnum.map EnumTypeData.range
      else none
    _attr_swing_modes := _attr_swing_modes
    _attr_supported_features := _attr_supported_features
    _attr_max_temp := _set_temperature.map IntegerTypeData.max_scaled
    _attr_min_temp := _set_temperature.map IntegerTypeData.min_scaled
    _attr_target_temperature_step :=
      match _set_temperature with
      | some t => t.step_scaled
      | none => 1
    _attr_min_humidity := humidity_set.map (fun t => intTrunc t.min_scaled)
    _attr_max_humidity := humidity_set.map (fun t => intTrunc t.max_scaled) }

/-- Outbound command to the vendor transport: a data-point code and the
value to write (`self._send_command` receives a list of these). -/
structure Command where
  code : String
  value : RawValue
deriving DecidableEq, Repr

/-- Boolean reading of `device.status.get(code, default)` as Python uses it
in a condition: the status value when present (by truthiness), the default
otherwise. -/
def TuyaDevice.statusGetD (d : TuyaDevice) (code : String) (dflt : Bool) :
    Bool :=
  match d.statusGet code with
  | some v => v.truthy
  | none => dflt

/-- Property `current_temperature` (climate.py lines 424-441): unknown
without a binding or a status value; divides by `base_value` first exactly
when `scale == 0` and `step != 1`, then applies `scale_value`.  A
non-numeric status value is outside the modelled domain and read as
unknown. -/
def TuyaClimateEntity.current_temperature (self : TuyaClimateEntity)
    (device : TuyaDevice) : Option ℚ :=
  match self._current_temperature with
  | none => none
  | some ct =>
    match device.statusGet ct.dpcode with
    | none => none
    | some raw =>
      match raw.toRat with
      | none => none
      | some temperature =>
        let temperature :=
          if ct.scale = 0 ∧ ct.step ≠ 1 then temperature / ct.base_value
          else temperature
        some (ct.scale_value temperature)

/-- Property `current_humidity` (climate.py lines 443-453): unknown without
a binding or a status value, else the scaled value rounded to an integer
(rounding modelled as round-half-up; no claim meets an exact half). -/
def TuyaClimateEntity.current_humidity (self : TuyaClimateEntity)
    (device : TuyaDevice) : Option Int :=
  match self._current_humidity with
  | none => none
  | some ch =>
    match device.statusGet ch.dpcode with
    | none => none
    | some raw =>
      match raw.toRat with
      | none => none
      | some humidity => some (round (ch.scale_value humidity))

/-- Property `target_temperature` (climate.py lines 455-465): unknown
without a binding or a status value, else `scale_value` applied directly to
the raw value — this getter has no scale-0 quirk branch. -/
def TuyaClimateEntity.target_temperature (self : TuyaClimateEntity)
    (device : TuyaDevice) : Option ℚ :=
  match self._set_temperature with
  | none => none
  | some st =>
    match device.statusGet st.dpcode with
    | none => none
    | some raw =>
      match raw.toRat with
      | none => none
      | some temperature => some (st.scale_value temperature)

/-- Property `target_humidity` (climate.py lines 467-477): unknown without a
binding or a status value, else the scaled value rounded to an integer. -/
def TuyaClimateEntity.target_humidity (self : TuyaClimateEntity)
    (device : TuyaDevice) : Option Int :=
  match self._set_humidity with
  | none => none
  | some sh =>
    match device.statusGet sh.dpcode with
    | none => none
    | some raw =>
      match raw.toRat with
      | none => none
      | some humidity => some (round (sh.scale_value humidity))

/-- Property `hvac_mode` (climate.py lines 479-501): off when the switch
status is present and falsy; when the mode data point is not declared
writable, the category fallback when the switch status is truthy, else off;
the translated host mode when the mode status value has a translation; else
the category fallback when the switch status is truthy, else off. -/
def TuyaClimateEntity.hvac_mode (self : TuyaClimateEntity)
    (device : TuyaDevice) : HVACMode :=
  if !(device.statusGetD (get_right_dpcode DPCode.SWITCH) true) then
    HVACMode.off
  else if !(device.functionHas (get_right_dpcode DPCode.MODE)) then
    if device.statusGetD (get_right_dpcode DPCode.SWITCH) false then
      self.entity_description.switch_only_hvac_mode
    else HVACMode.off
  else
    match ((device.statusGet (get_right_dpcode DPCode.MODE)).bind
        RawValue.asStr).bind tuyaToHa with
    | some ha_mode => ha_mode
    | none =>
      if device.statusGetD DPCode.SWITCH false then
        self.entity_description.switch_only_hvac_mode
      else HVACMode.off

/-- First `preset_mode` property declaration (climate.py lines 503-513).  In
a Python class body a later declaration of the same attribute name rebinds
it, so this declaration is shadowed by the one at lines 579-583 and never
executes; it is embedded for reference. -/
def TuyaClimateEntity.preset_mode_shadowed (device : TuyaDevice) :
    Option RawValue :=
  if !(device.functionHas DPCode.MODE) then none
  else
    match device.statusGet DPCode.MODE with
    | none => none
    | some raw =>
      match raw.asStr with
      | some s => if (tuyaToHa s).isSome then none else some raw
      | none => some raw

/-- Effective `preset_modes` property (climate.py lines 574-577): always the
two-element list of the none preset and the eco preset; it shadows the
attribute-backed list that the constructor fills from unknown vendor
modes. -/
def TuyaClimateEntity.preset_modes : List String := [PRESET_NONE, PRESET_ECO]

/-- Effective `preset_mode` property (climate.py lines 579-583): the eco
preset exactly when the eco data point status value is truthy, the none
preset otherwise. -/
def TuyaClimateEntity.preset_mode (device : TuyaDevice) : String :=
  if truthyOpt (device.statusGet (get_right_dpcode DPCode.ECO)) then PRESET_ECO
  else PRESET_NONE

/-- Setter `set_hvac_mode` (climate.py lines 337-352): one batch holding a
switch command (true exactly when the requested mode is not off), plus a
mode command with the reverse-mapped vendor value when the requested mode
has a recorded reverse mapping. -/
def TuyaClimateEntity.set_hvac_mode (self : TuyaClimateEntity)
    (hvac_mode : HVACMode) : List Command :=
  let commands :=
    [⟨get_right_dpcode DPCode.SWITCH, .bool (hvac_mode != HVACMode.off)⟩]
  match self._hvac_to_tuya.lookup hvac_mode with
  | some tuya_mode =>
    commands ++ [⟨get_right_dpcode DPCode.MODE, .str tuya_mode⟩]
  | none => commands

/-- Setter `set_humidity` (climate.py lines 365-379): an error without a
target-humidity binding (the runtime-error message is paraphrased without
the contraction), else one command on the bound data point with the
back-scaled value. -/
def TuyaClimateEntity.set_humidity (self : TuyaClimateEntity)
    (humidity : Int) : Except String (List Command) :=
  match self._set_humidity with
  | none =>
    .error "Cannot set humidity, device does not provide methods to set it"
  | some sh => .ok [⟨sh.dpcode, .int (sh.scale_value_back (humidity : ℚ))⟩]

/-- Setter `set_swing_mode` (climate.py lines 381-404): one batch always
holding the four swing data points, whatever the device declares. -/
def TuyaClimateEntity.set_swing_mode (swing_mode : String) : List Command :=
  [⟨get_right_dpcode DPCode.SHAKE, .bool (swing_mode == SWING_ON)⟩,
   ⟨get_right_dpcode DPCode.SWING, .bool (swing_mode == SWING_ON)⟩,
   ⟨get_right_dpcode DPCode.SWITCH_VERTICAL,
     .bool (swing_mode == SWING_BOTH || swing_mode == SWING_VERTICAL)⟩,
   ⟨get_right_dpcode DPCode.SWITCH_HORIZONTAL,
     .bool (swing_mode == SWING_BOTH || swing_mode == SWING_HORIZONTAL)⟩]

/-- Setter `set_temperature` (climate.py lines 406-422): an error without a
target-temperature binding (message paraphrased without the contraction),
else one command on the bound data point; the outer Python `round` is the
identity on the integer the modelled converter already returns. -/
def TuyaClimateEntity.set_temperature (self : TuyaClimateEntity)
    (temperature : ℚ) : Except String (List Command) :=
  match self._set_temperature with
  | none =>
    .error
      "Cannot set target temperature, device does not provide methods to set it"
  | some st => .ok [⟨st.dpcode, .int (st.scale_value_back temperature)⟩]

/-- Effective `set_preset_mode` (climate.py lines 585-602, shadowing the
declaration at lines 354-357): no command when the requested preset is not
in the effective preset list (the `is None` guard is vacuous since the
effective `preset_modes` is a constant list), else one eco command whose
value is true exactly for the eco preset. -/
def TuyaClimateEntity.set_preset_mode (preset_mode : String) : List Command :=
  if !(TuyaClimateEntity.preset_modes.contains preset_mode) then []
  else
    let send_value := preset_mode == PRESET_ECO
    [⟨get_right_dpcode DPCode.ECO, .bool send_value⟩]

/-- Assigning a key makes it look up to the assigned value. -/
lemma assocSet_lookup_self (l : List (HVACMode × String)) (k : HVACMode)
    (v : String) : (assocSet l k v).lookup k = some v := by
  induction l with
  | nil => simp [assocSet]
  | cons p t ih =>
    obtain ⟨k0, v0⟩ := p
    by_cases h : k0 = k
    · simp [assocSet, h]
    · simp [assocSet, h, List.lookup, ih,
        beq_eq_false_iff_ne.mpr (Ne.symm h)]

/-- Assigning a key leaves every other key unchanged. -/
lemma assocSet_lookup_ne (l : List (HVACMode × String)) (k : HVACMode)
    (v : String) (k' : HVACMode) (h : k' ≠ k) :
    (assocSet l k v).lookup k' = l.lookup k' := by
  induction l with
  | nil => simp [assocSet, List.lookup, beq_eq_false_iff_ne.mpr h]
  | cons p t ih =>
    obtain ⟨k0, v0⟩ := p
    by_cases h0 : k0 = k
    · subst h0
      simp [assocSet, List.lookup, beq_eq_false_iff_ne.mpr h]
    · by_cases h1 : k' = k0
      · subst h1
        simp [assocSet, h0, List.lookup]
      · simp [assocSet, h0, List.lookup, ih,
          beq_eq_false_iff_ne.mpr h1]

/-- A successful lookup after an assignment is either the fresh assignment
or an untouched earlier entry. -/
lemma assocSet_lookup_cases (l : List (HVACMode × String)) (k : HVACMode)
    (v : String) (h : HVACMode) (m' : String)
    (hl : (assocSet l k v).lookup h = some m') :
    (h = k ∧ m' = v) ∨ l.lookup h = some m' := by
  by_cases hk : h = k
  · subst hk
    rw [assocSet_lookup_self] at hl
    exact Or.inl ⟨rfl, (Option.some_inj.mp hl).symm⟩
  · rw [assocSet_lookup_ne _ _ _ _ hk] at hl
    exact Or.inr hl

/-- The supported-mode component of the constructor's fold: the initial list
followed by the translation of every translatable permitted value, in
order. -/
lemma hvacFold_modes (range : List String)
    (acc : List HVACMode × List (HVACMode × String) × List String) :
    (range.foldl hvacFoldStep acc).1 = acc.1 ++ range.filterMap tuyaToHa := by
  induction range generalizing acc with
  | nil => simp
  | cons m t ih =>
    cases htr : tuyaToHa m <;>
      simp [hvacFoldStep, htr, ih, List.filterMap_cons]

/-- The unknown-mode component of the constructor's fold: the initial list
followed by every untranslatable permitted value, in order. -/
lemma hvacFold_unknown (range : List String)
    (acc : List HVACMode × List (HVACMode × String) × List String) :
    (range.foldl hvacFoldStep acc).2.2 =
      acc.2.2 ++ range.filter (fun m => (tuyaToHa m).isNone) := by
  induction range generalizing acc with
  | nil => simp
  | cons m t ih =>
    cases htr : tuyaToHa m <;>
      simp [hvacFoldStep, htr, ih, List.filter_cons]

/-- A host mode already present in the reverse mapping stays present through
the constructor's fold. -/
lemma hvacFold_tt_preserved (range : List String)
    (acc : List HVACMode × List (HVACMode × String) × List String)
    (h : HVACMode) (hs : ((acc.2.1).lookup h).isSome = true) :
    (((range.foldl hvacFoldStep acc).2.1).lookup h).isSome = true := by
  induction range generalizing acc with
  | nil => simpa using hs
  | cons m t ih =>
    cases htr : tuyaToHa m with
    | none => exact ih _ (by simpa [hvacFoldStep, htr] using hs)
    | some ha =>
      apply ih
      by_cases hh : h = ha
      · subst hh
        simp [hvacFoldStep, htr, assocSet_lookup_self]
      · simpa [hvacFoldStep, htr, assocSet_lookup_ne _ _ _ _ hh] using hs

/-- Every translatable permitted value leaves its host mode present in the
reverse mapping after the constructor's fold. -/
lemma hvacFold_tt_mem (range : List String)
    (acc : List HVACMode × List (HVACMode × String) × List String)
    (m : String) (h : HVACMode) (hm : m ∈ range) (htr : tuyaToHa m = some h) :
    (((range.foldl hvacFoldStep acc).2.1).lookup h).isSome = true := by
  induction range generalizing acc with
  | nil => cases hm
  | cons a t ih =>
    rcases List.mem_cons.mp hm with rfl | hmem
    · show (((t.foldl hvacFoldStep (hvacFoldStep acc m)).2.1).lookup h).isSome
        = true
      apply hvacFold_tt_preserved
      simp [hvacFoldStep, htr, assocSet_lookup_self]
    · exact ih (hvacFoldStep acc a) hmem

/-- Every entry of the reverse mapping built by the constructor's fold was
put there by a translatable value of the processed range. -/
lemma hvacFold_tt_good (R : List String) :
    ∀ (range : List String), (∀ m ∈ range, m ∈ R) →
    ∀ (acc : List HVACMode × List (HVACMode × String) × List String),
      (∀ h m', acc.2.1.lookup h = some m' → m' ∈ R ∧ tuyaToHa m' = some h) →
      ∀ h m', ((range.foldl hvacFoldStep acc).2.1).lookup h = some m' →
        m' ∈ R ∧ tuyaToHa m' = some h := by
  intro range
  induction range with
  | nil =>
    intro _ acc hacc h m' hl
    exact hacc h m' (by simpa using hl)
  | cons a t ih =>
    intro hsub acc hacc h m' hl
    have hstep : ∀ h2 m2, ((hvacFoldStep acc a).2.1).lookup h2 = some m2 →
        m2 ∈ R ∧ tuyaToHa m2 = some h2 := by
      intro h2 m2 hl2
      cases htr : tuyaToHa a with
      | none =>
        simp only [hvacFoldStep, htr] at hl2
        exact hacc h2 m2 hl2
      | some ha =>
        simp only [hvacFoldStep, htr] at hl2
        rcases assocSet_lookup_cases _ _ _ _ _ hl2 with ⟨rfl, rfl⟩ | hold
        · exact ⟨hsub _ (List.mem_cons_self _ _), htr⟩
        · exact hacc h2 m2 hold
    exact ih (fun m hm => hsub m (List.mem_cons_of_mem a hm))
      (hvacFoldStep acc a) hstep h m' (by simpa using hl)

/-- Filtering yields the empty list exactly when no element satisfies the
predicate. -/
lemma filter_isEmpty_eq_not_any {α : Type} (p : α → Bool) (l : List α) :
    (l.filter p).isEmpty = !(l.any p) := by
  induction l with
  | nil => rfl
  | cons a t ih =>
    by_cases h : p a <;> simp [List.filter_cons, h, ih]

/-- Entity description of the thermostat category, fallback HEAT_COOL. -/
def descWK : TuyaClimateEntityDescription := ⟨"wk", .heat_cool⟩

/-- Entity description of the air-conditioner category, fallback COOL. -/
def descKT : TuyaClimateEntityDescription := ⟨"kt", .cool⟩

/-- Integer descriptor with scale 0 and step 2 for the current
temperature. -/
def tdC1cur : IntegerTypeData := ⟨DPCode.TEMP_CURRENT, 0, 500, 0, 2, 10⟩

/-- Integer descriptor with scale 0 and step 2 for the target
temperature. -/
def tdC1set : IntegerTypeData := ⟨DPCode.TEMP_SET, 0, 500, 0, 2, 10⟩

/-- Thermostat whose temperature data points declare scale 0 with step 2
and report the raw value 250. -/
def devC1 : TuyaDevice :=
  ⟨"wk",
   [(DPCode.TEMP_SET, .int 250), (DPCode.TEMP_CURRENT, .int 250)],
   [(DPCode.TEMP_SET, .integer tdC1set)],
   [(DPCode.TEMP_CURRENT, .integer tdC1cur)]⟩

/-- Entity constructed for `devC1`. -/
def entC1 : TuyaClimateEntity := TuyaClimateEntity.init devC1 descWK

/-- Air conditioner with a writable mode enum, whose status holds a truthy
switch but no mode value. -/
def devC2 : TuyaDevice :=
  ⟨"kt", [(DPCode.SWITCH, .bool true)],
   [(DPCode.MODE, .enum ⟨DPCode.MODE, ["cold", "xyz"]⟩)], []⟩

/-- Entity constructed for `devC2`. -/
def entC2 : TuyaClimateEntity := TuyaClimateEntity.init devC2 descKT

/-- Same air conditioner with the mode status present and translated. -/
def devC2w : TuyaDevice :=
  ⟨"kt", [(DPCode.SWITCH, .bool true), (DPCode.MODE, .str "cold")],
   [(DPCode.MODE, .enum ⟨DPCode.MODE, ["cold", "xyz"]⟩)], []⟩

/-- Device with a writable mode data point whose current status value is an
unrecognized vendor mode and whose eco data point is absent. -/
def devC3 : TuyaDevice :=
  ⟨"kt", [(DPCode.MODE, .str "xyz")],
   [(DPCode.MODE, .enum ⟨DPCode.MODE, ["xyz"]⟩)], []⟩

/-- Device whose eco data point status is true. -/
def devC3e : TuyaDevice := ⟨"kt", [(DPCode.ECO, .bool true)], [], []⟩

/-- Mode enum with one translatable and one unknown value. -/
def etC4 : EnumTypeData := ⟨DPCode.MODE, ["cold", "xyz"]⟩

/-- Air conditioner declaring the mode enum `etC4` as writable. -/
def devC4 : TuyaDevice := ⟨"kt", [], [(DPCode.MODE, .enum etC4)], []⟩

/-- Switch-only air conditioner: no mode enum, a writable switch. -/
def devC4s : TuyaDevice := ⟨"kt", [], [(DPCode.SWITCH, .boolean)], []⟩

/-- Air conditioner whose writable mode enum has only the unknown value
xyz. -/
def devC5 : TuyaDevice :=
  ⟨"kt", [], [(DPCode.MODE, .enum ⟨DPCode.MODE, ["xyz"]⟩)], []⟩

/-- Device with no declarations at all: nothing resolves. -/
def devC6e : TuyaDevice := ⟨"wk", [], [], []⟩

/-- Entity constructed for `devC6e`: every binding is absent. -/
def entC6e : TuyaClimateEntity := TuyaClimateEntity.init devC6e descWK

/-- Integer descriptor for the current temperature with scale 1. -/
def tdC6ct : IntegerTypeData := ⟨DPCode.TEMP_CURRENT, 0, 500, 1, 1, 10⟩

/-- Integer descriptor for the target temperature with scale 1. -/
def tdC6st : IntegerTypeData := ⟨DPCode.TEMP_SET, 0, 500, 1, 1, 10⟩

/-- Integer descriptor for the target humidity. -/
def tdC6sh : IntegerTypeData := ⟨DPCode.HUMIDITY_SET, 0, 100, 0, 1, 10⟩

/-- Integer descriptor for the current humidity. -/
def tdC6ch : IntegerTypeData := ⟨DPCode.HUMIDITY_CURRENT, 0, 100, 0, 1, 10⟩

/-- Thermostat declaring all four numeric data points as writable while its
status snapshot is empty. -/
def devC6b : TuyaDevice :=
  ⟨"wk", [],
   [(DPCode.TEMP_CURRENT, .integer tdC6ct), (DPCode.TEMP_SET, .integer tdC6st),
    (DPCode.HUMIDITY_SET, .integer tdC6sh),
    (DPCode.HUMIDITY_CURRENT, .integer tdC6ch)], []⟩

/-- Entity constructed for `devC6b`: every binding resolves, every status
value is absent. -/
def entC6b : TuyaClimateEntity := TuyaClimateEntity.init devC6b descWK

/-- Integer descriptor matching the spec §8 thermostat target
temperature. -/
def tdC7t : IntegerTypeData := ⟨DPCode.TEMP_SET, 50, 350, 1, 5, 10⟩

/-- Integer descriptor for a writable humidity target. -/
def tdC7h : IntegerTypeData := ⟨DPCode.HUMIDITY_SET, 0, 100, 0, 1, 10⟩

/-- Thermostat with writable target-temperature and target-humidity data
points. -/
def devC7 : TuyaDevice :=
  ⟨"wk", [],
   [(DPCode.TEMP_SET, .integer tdC7t), (DPCode.HUMIDITY_SET, .integer tdC7h)],
   []⟩

/-- Entity constructed for `devC7`. -/
def entC7 : TuyaClimateEntity := TuyaClimateEntity.init devC7 descWK

/-- Device with no declarations, used for the unsupported-setter cases. -/
def devC7e : TuyaDevice := ⟨"wk", [], [], []⟩

/-- Entity constructed for `devC7e`: no target bindings. -/
def entC7e : TuyaClimateEntity := TuyaClimateEntity.init devC7e descWK

/-- Entity with a mode enum, used to exercise the HVAC-mode setter. -/
def entC8 : TuyaClimateEntity := TuyaClimateEntity.init devC4 descKT

/-- String comparison as the decision of propositional equality, with the
standard decidable-equality instance of strings. -/
lemma string_beq_eq_decide (a b : String) : (a == b) = decide (a = b) := by
  by_cases h : a = b
  · simp [h]
  · simp [h, beq_eq_false_iff_ne.mpr h]

/-- C6: for each of the four numeric property getters, an absent binding
reads as unknown, and an existing binding whose data point is absent from
the live status snapshot also reads as unknown; no getter errors. -/
theorem C6_absent_reads_unknown (e : TuyaClimateEntity) (d : TuyaDevice) :
    (e._current_temperature = none → e.current_temperature d = none) ∧
    (∀ t, e._current_temperature = some t → d.statusGet t.dpcode = none →
      e.current_temperature d = none) ∧
    (e._set_temperature = none → e.target_temperature d = none) ∧
    (∀ t, e._set_temperature = some t → d.statusGet t.dpcode = none →
      e.target_temperature d = none) ∧
    (e._current_humidity = none → e.current_humidity d = none) ∧
    (∀ t, e._current_humidity = some t → d.statusGet t.dpcode = none →
      e.current_humidity d = none) ∧
    (e._set_humidity = none → e.target_humidity d = none) ∧
    (∀ t, e._set_humidity = some t → d.statusGet t.dpcode = none →
      e.target_humidity d = none) := by
  refine ⟨?_, ?_, ?_, ?_, ?_, ?_, ?_, ?_⟩
  · intro h
    simp [TuyaClimateEntity.current_temperature, h]
  · intro t ht hs
    simp [TuyaClimateEntity.current_temperature, ht, hs]
  · intro h
    simp [TuyaClimateEntity.target_temperature, h]
  · intro t ht hs
    simp [TuyaClimateEntity.target_temperature, ht, hs]
  · intro h
    simp [TuyaClimateEntity.current_humidity, h]
  · intro t ht hs
    simp [TuyaClimateEntity.current_humidity, ht, hs]
  · intro h
    simp [TuyaClimateEntity.target_humidity, h]
  · intro t ht hs
    simp [TuyaClimateEntity.target_humidity, ht, hs]

/-- Witness for C6: a device with no bindings and a device with bindings
but an empty status snapshot both read every numeric property as
unknown. -/
theorem C6_witness :
    entC6e.current_temperature devC6e = none ∧
    entC6e.target_temperature devC6e = none ∧
    entC6e.current_humidity devC6e = none ∧
    entC6e.target_humidity devC6e = none ∧
    entC6b.current_temperature devC6b = none ∧
    entC6b.target_temperature devC6b = none ∧
    entC6b.current_humidity devC6b = none ∧
    entC6b.target_humidity devC6b = none := by
  refine ⟨(C6_absent_reads_unknown entC6e devC6e).1 rfl,
    (C6_absent_reads_unknown entC6e devC6e).2.2.1 rfl,
    (C6_absent_reads_unknown entC6e devC6e).2.2.2.2.1 rfl,
    (C6_absent_reads_unknown entC6e devC6e).2.2.2.2.2.2.1 rfl,
    (C6_absent_reads_unknown entC6b devC6b).2.1 tdC6ct rfl rfl,
    (C6_absent_reads_unknown entC6b devC6b).2.2.2.1 tdC6st rfl rfl,
    (C6_absent_reads_unknown entC6b devC6b).2.2.2.2.2.1 tdC6ch rfl rfl,
    (C6_absent_reads_unknown entC6b devC6b).2.2.2.2.2.2.2 tdC6sh rfl rfl⟩

/-- C7: the target-temperature and target-humidity setters error out when
their binding is absent (sending nothing), and otherwise submit exactly one
command on the bound data point. -/
theorem C7_setter_guard (e : TuyaClimateEntity) (v : ℚ) (h : Int) :
    (e._set_temperature = none → ∃ msg, e.set_temperature v = .error msg) ∧
    (∀ t, e._set_temperature = some t →
      e.set_temperature v = .ok [⟨t.dpcode, .int (t.scale_value_back v)⟩]) ∧
    (e._set_humidity = none → ∃ msg, e.set_humidity h = .error msg) ∧
    (∀ t, e._set_humidity = some t →
      e.set_humidity h =
        .ok [⟨t.dpcode, .int (t.scale_value_back (h : ℚ))⟩]) := by
  refine ⟨?_, ?_, ?_, ?_⟩
  · intro hn
    refine ⟨"Cannot set target temperature, device does not provide methods to set it", ?_⟩
    simp [TuyaClimateEntity.set_temperature, hn]
  · intro t ht
    simp [TuyaClimateEntity.set_temperature, ht]
  · intro hn
    refine ⟨"Cannot set humidity, device does not provide methods to set it", ?_⟩
    simp [TuyaClimateEntity.set_humidity, hn]
  · intro t ht
    simp [TuyaClimateEntity.set_humidity, ht]

/-- Witness for C7: the setters error on the bindingless entity and submit
one command on the spec §8 thermostat. -/
theorem C7_witness :
    (∃ msg, entC7e.set_temperature 22 = .error msg) ∧
    entC7.set_temperature (223 / 10) =
      .ok [⟨tdC7t.dpcode, .int (tdC7t.scale_value_back (223 / 10))⟩] ∧
    (∃ msg, entC7e.set_humidity 50 = .error msg) ∧
    entC7.set_humidity 50 =
      .ok [⟨tdC7h.dpcode, .int (tdC7h.scale_value_back ((50 : Int) : ℚ))⟩] := by
  exact ⟨(C7_setter_guard entC7e 22 0).1 rfl,
    (C7_setter_guard entC7 (223 / 10) 0).2.1 tdC7t rfl,
    (C7_setter_guard entC7e 0 50).2.2.1 rfl,
    (C7_setter_guard entC7 0 50).2.2.2 tdC7h rfl⟩

/-- C8: the HVAC-mode setter submits one batch led by a switch command that
is true exactly when the requested mode is not off, followed by a mode
command with the reverse-mapped vendor value exactly when the requested
mode has a recorded reverse mapping, and nothing else. -/
theorem C8_set_hvac_mode_batch (e : TuyaClimateEntity) (m : HVACMode) :
    (e._hvac_to_tuya.lookup m = none →
      e.set_hvac_mode m =
        [⟨get_right_dpcode DPCode.SWITCH,
          .bool (decide (m ≠ HVACMode.off))⟩]) ∧
    (∀ tm, e._hvac_to_tuya.lookup m = some tm →
      e.set_hvac_mode m =
        [⟨get_right_dpcode DPCode.SWITCH, .bool (decide (m ≠ HVACMode.off))⟩,
         ⟨get_right_dpcode DPCode.MODE, .str tm⟩]) := by
  have hb : (m != HVACMode.off) = decide (m ≠ HVACMode.off) := by
    by_cases hm : m = HVACMode.off <;> simp [hm]
  constructor
  · intro hn
    simp [TuyaClimateEntity.set_hvac_mode, hn, hb]
  · intro tm htm
    simp [TuyaClimateEntity.set_hvac_mode, htm, hb]

/-- Witness for C8: on an entity with the reverse mapping cool to cold, the
cool request yields switch-true plus the mode command, the off request only
switch-false. -/
theorem C8_witness :
    entC8.set_hvac_mode HVACMode.cool =
      [⟨get_right_dpcode DPCode.SWITCH, .bool true⟩,
       ⟨get_right_dpcode DPCode.MODE, .str "cold"⟩] ∧
    entC8.set_hvac_mode HVACMode.off =
      [⟨get_right_dpcode DPCode.SWITCH, .bool false⟩] := by
  constructor
  · exact (C8_set_hvac_mode_batch entC8 HVACMode.cool).2 "cold" rfl
  · exact (C8_set_hvac_mode_batch entC8 HVACMode.off).1 rfl

/-- C9: the swing-mode setter always submits exactly the four swing data
points, with shake and swing true exactly for the on request, vertical true
exactly for both or vertical, horizontal true exactly for both or
horizontal. -/
theorem C9_set_swing_mode_batch (s : String) :
    TuyaClimateEntity.set_swing_mode s =
      [⟨get_right_dpcode DPCode.SHAKE, .bool (decide (s = SWING_ON))⟩,
       ⟨get_right_dpcode DPCode.SWING, .bool (decide (s = SWING_ON))⟩,
       ⟨get_right_dpcode DPCode.SWITCH_VERTICAL,
         .bool (decide (s = SWING_BOTH) || decide (s = SWING_VERTICAL))⟩,
       ⟨get_right_dpcode DPCode.SWITCH_HORIZONTAL,
         .bool (decide (s = SWING_BOTH) || decide (s = SWING_HORIZONTAL))⟩] := by
  simp [TuyaClimateEntity.set_swing_mode, string_beq_eq_decide]

/-- C10: the effective preset setter ignores any preset other than none and
eco without erring, and sends exactly one eco command, true for eco and
false for none. -/
theorem C10_set_preset_guard (p : String) :
    (p ≠ PRESET_NONE → p ≠ PRESET_ECO →
      TuyaClimateEntity.set_preset_mode p = []) ∧
    TuyaClimateEntity.set_preset_mode PRESET_ECO =
      [⟨get_right_dpcode DPCode.ECO, .bool true⟩] ∧
    TuyaClimateEntity.set_preset_mode PRESET_NONE =
      [⟨get_right_dpcode DPCode.ECO, .bool false⟩] := by
  refine ⟨?_, rfl, rfl⟩
  intro h1 h2
  simp [TuyaClimateEntity.set_preset_mode, TuyaClimateEntity.preset_modes,
    List.contains]
  exact ⟨h1, h2⟩

/-- Witness for C10: the unknown preset away sends nothing, the eco preset
sends the eco-true command. -/
theorem C10_witness :
    TuyaClimateEntity.set_preset_mode "away" = [] ∧
    TuyaClimateEntity.set_preset_mode PRESET_ECO =
      [⟨get_right_dpcode DPCode.ECO, .bool true⟩] := by
  exact ⟨(C10_set_preset_guard "away").1 (by decide) (by decide),
    (C10_set_preset_guard "away").2.1⟩

/-- Counterexample for C1: on a target-temperature binding with scale 0 and
step 2 and raw status value 250, the claim requires the quirk value 25, but
the target-temperature getter returns 250 — only the current-temperature
getter has the quirk branch. -/
theorem C1_counterexample :
    entC1._set_temperature = some tdC1set ∧
    tdC1set.scale = 0 ∧ tdC1set.step ≠ 1 ∧
    devC1.statusGet tdC1set.dpcode = some (.int 250) ∧
    entC1.target_temperature devC1 = some 250 ∧
    tdC1set.scale_value ((250 : ℚ) / tdC1set.base_value) = 25 ∧
    (250 : ℚ) ≠ 25 := by
  have h5 : entC1.target_temperature devC1 =
      some (tdC1set.scale_value ((250 : Int) : ℚ)) := by
    simp [TuyaClimateEntity.target_temperature,
      show entC1._set_temperature = some tdC1set from rfl,
      show devC1.statusGet tdC1set.dpcode = some (.int 250) from rfl,
      RawValue.toRat]
  refine ⟨rfl, rfl, by decide, rfl, ?_, ?_, by norm_num⟩
  · rw [h5]
    norm_num [IntegerTypeData.scale_value, tdC1set]
  · norm_num [IntegerTypeData.scale_value, tdC1set]

/-- C1 amended: only the current-temperature getter applies the scale-0
quirk branch (dividing the raw value by the base constant before
`scale_value`); the target-temperature getter applies `scale_value` to the
raw status value directly. -/
theorem C1_amended_scale0_quirk (e : TuyaClimateEntity) (d : TuyaDevice) :
    (∀ ct v raw, e._current_temperature = some ct → ct.scale = 0 →
      ct.step ≠ 1 → d.statusGet ct.dpcode = some v → v.toRat = some raw →
      e.current_temperature d =
        some (ct.scale_value (raw / ct.base_value))) ∧
    (∀ st v raw, e._set_temperature = some st →
      d.statusGet st.dpcode = some v → v.toRat = some raw →
      e.target_temperature d = some (st.scale_value raw)) := by
  constructor
  · intro ct v raw hct hsc hst hv hr
    simp [TuyaClimateEntity.current_temperature, hct, hv, hr, hsc, hst]
  · intro st v raw hst hv hr
    simp [TuyaClimateEntity.target_temperature, hst, hv, hr]

/-- Witness for C1: the current-temperature getter reads 25 through the
quirk branch while the target-temperature getter reads 250 from the same
raw value. -/
theorem C1_amended_witness :
    entC1.current_temperature devC1 = some 25 ∧
    entC1.target_temperature devC1 = some 250 := by
  constructor
  · have h := (C1_amended_scale0_quirk entC1 devC1).1 tdC1cur (.int 250) 250
      rfl rfl (by decide) rfl (by norm_num [RawValue.toRat])
    rw [h]
    norm_num [IntegerTypeData.scale_value, tdC1cur]
  · have h := (C1_amended_scale0_quirk entC1 devC1).2 tdC1set (.int 250) 250
      rfl rfl (by norm_num [RawValue.toRat])
    rw [h]
    norm_num [IntegerTypeData.scale_value, tdC1set]

/-- Counterexample for C2: switch present and truthy, mode data point
declared writable but its status value absent — the last claimed case (OFF
otherwise) would apply, yet the getter returns the category fallback
mode. -/
theorem C2_counterexample :
    devC2.statusGet (get_right_dpcode DPCode.SWITCH) = some (.bool true) ∧
    devC2.functionHas (get_right_dpcode DPCode.MODE) = true ∧
    devC2.statusGet (get_right_dpcode DPCode.MODE) = none ∧
    entC2.entity_description.switch_only_hvac_mode = HVACMode.cool ∧
    entC2.hvac_mode devC2 = HVACMode.cool ∧
    HVACMode.cool ≠ HVACMode.off := by
  refine ⟨rfl, rfl, rfl, rfl, rfl, by decide⟩

/-- C2 amended: the HVAC-mode read is as claimed except in the fourth case,
which fires whenever the declared mode's status value is absent or lacks a
translation (not only when a value is present) and the switch status is
truthy. -/
theorem C2_amended_hvac_mode (e : TuyaClimateEntity) (d : TuyaDevice) :
    (∀ v, d.statusGet (get_right_dpcode DPCode.SWITCH) = some v →
      v.truthy = false → e.hvac_mode d = HVACMode.off) ∧
    (d.statusGetD (get_right_dpcode DPCode.SWITCH) true = true →
      d.functionHas (get_right_dpcode DPCode.MODE) = false →
      ((d.statusGetD (get_right_dpcode DPCode.SWITCH) false = true →
        e.hvac_mode d = e.entity_description.switch_only_hvac_mode) ∧
       (d.statusGetD (get_right_dpcode DPCode.SWITCH) false = false →
        e.hvac_mode d = HVACMode.off))) ∧
    (∀ s h, d.statusGetD (get_right_dpcode DPCode.SWITCH) true = true →
      d.functionHas (get_right_dpcode DPCode.MODE) = true →
      d.statusGet (get_right_dpcode DPCode.MODE) = some (.str s) →
      tuyaToHa s = some h → e.hvac_mode d = h) ∧
    (d.statusGetD (get_right_dpcode DPCode.SWITCH) true = true →
      d.functionHas (get_right_dpcode DPCode.MODE) = true →
      ((d.statusGet (get_right_dpcode DPCode.MODE)).bind RawValue.asStr).bind
        tuyaToHa = none →
      ((d.statusGetD DPCode.SWITCH false = true →
        e.hvac_mode d = e.entity_description.switch_only_hvac_mode) ∧
       (d.statusGetD DPCode.SWITCH false = false →
        e.hvac_mode d = HVACMode.off))) := by
  refine ⟨?_, ?_, ?_, ?_⟩
  · intro v hv ht
    simp [TuyaClimateEntity.hvac_mode, TuyaDevice.statusGetD, hv, ht]
  · intro h1 h2
    exact ⟨fun h3 => by simp [TuyaClimateEntity.hvac_mode, h1, h2, h3],
      fun h3 => by simp [TuyaClimateEntity.hvac_mode, h1, h2, h3]⟩
  · intro s h h1 h2 hs htr
    simp [TuyaClimateEntity.hvac_mode, h1, h2, hs, htr, RawValue.asStr]
  · intro h1 h2 hnone
    exact ⟨fun h3 => by
        simp [TuyaClimateEntity.hvac_mode, h1, h2, hnone, h3],
      fun h3 => by
        simp [TuyaClimateEntity.hvac_mode, h1, h2, hnone, h3]⟩

/-- Witness for C2: translated mode read on one device, fallback read on
the declared-but-valueless device. -/
theorem C2_amended_witness :
    entC2.hvac_mode devC2w = HVACMode.cool ∧
    entC2.hvac_mode devC2 = HVACMode.cool := by
  refine ⟨(C2_amended_hvac_mode entC2 devC2w).2.2.1 "cold" HVACMode.cool
      rfl rfl rfl rfl,
    ((C2_amended_hvac_mode entC2 devC2).2.2.2 rfl rfl rfl).1 rfl⟩

/-- Counterexample for C3: with a declared mode whose status value is the
untranslated string xyz, the claim requires the getter to report xyz as the
active preset, but the effective getter (the later declaration shadows the
earlier one) reports the none preset. -/
theorem C3_counterexample :
    devC3.functionHas DPCode.MODE = true ∧
    devC3.statusGet DPCode.MODE = some (.str "xyz") ∧
    tuyaToHa "xyz" = none ∧
    TuyaClimateEntity.preset_mode devC3 = PRESET_NONE ∧
    PRESET_NONE ≠ "xyz" ∧
    TuyaClimateEntity.preset_mode_shadowed devC3 = some (.str "xyz") := by
  refine ⟨rfl, rfl, rfl, rfl, by decide, rfl⟩

/-- C3 amended: the claimed behavior lives in the first, shadowed
declaration; the effective preset-mode getter reads only the eco data
point: eco preset exactly when its status value is truthy, none preset
otherwise. -/
theorem C3_amended_eco_preset (d : TuyaDevice) :
    (TuyaClimateEntity.preset_mode d = PRESET_ECO ↔
      truthyOpt (d.statusGet (get_right_dpcode DPCode.ECO)) = true) ∧
    (TuyaClimateEntity.preset_mode d = PRESET_NONE ↔
      truthyOpt (d.statusGet (get_right_dpcode DPCode.ECO)) = false) ∧
    (d.functionHas DPCode.MODE = false →
      TuyaClimateEntity.preset_mode_shadowed d = none) ∧
    (∀ s h, d.functionHas DPCode.MODE = true →
      d.statusGet DPCode.MODE = some (.str s) → tuyaToHa s = some h →
      TuyaClimateEntity.preset_mode_shadowed d = none) ∧
    (∀ s, d.functionHas DPCode.MODE = true →
      d.statusGet DPCode.MODE = some (.str s) → tuyaToHa s = none →
      TuyaClimateEntity.preset_mode_shadowed d = some (.str s)) := by
  refine ⟨?_, ?_, ?_, ?_, ?_⟩
  · by_cases ht : truthyOpt (d.statusGet (get_right_dpcode DPCode.ECO)) <;>
      simp [TuyaClimateEntity.preset_mode, ht, PRESET_ECO, PRESET_NONE]
  · by_cases ht : truthyOpt (d.statusGet (get_right_dpcode DPCode.ECO)) <;>
      simp [TuyaClimateEntity.preset_mode, ht, PRESET_ECO, PRESET_NONE]
  · intro hf
    simp [TuyaClimateEntity.preset_mode_shadowed, hf]
  · intro s h hf hs htr
    simp [TuyaClimateEntity.preset_mode_shadowed, hf, hs, RawValue.asStr, htr]
  · intro s hf hs htr
    simp [TuyaClimateEntity.preset_mode_shadowed, hf, hs, RawValue.asStr, htr]

/-- Witness for C3: the effective getter reads none on the xyz-mode device
and eco on the eco-true device; the shadowed declaration reads xyz. -/
theorem C3_amended_witness :
    TuyaClimateEntity.preset_mode devC3 = PRESET_NONE ∧
    TuyaClimateEntity.preset_mode devC3e = PRESET_ECO ∧
    TuyaClimateEntity.preset_mode_shadowed devC3 = some (.str "xyz") := by
  refine ⟨(C3_amended_eco_preset devC3).2.1.mpr rfl,
    (C3_amended_eco_preset devC3e).1.mpr rfl,
    (C3_amended_eco_preset devC3).2.2.2.2 "xyz" rfl rfl rfl⟩

/-- Counterexample for C5: the device whose mode enum holds only the
unknown value xyz stores xyz in the construction-time attribute, but the
adapter's exposed preset-mode list is the constant pair none, eco — not
the unrecognized vendor values. -/
theorem C5_counterexample :
    (TuyaClimateEntity.init devC5 descKT)._attr_preset_modes =
      some ["xyz"] ∧
    TuyaClimateEntity.preset_modes = [PRESET_NONE, PRESET_ECO] ∧
    ([PRESET_NONE, PRESET_ECO] : List String) ≠ ["xyz"] := by
  refine ⟨rfl, rfl, by decide⟩

/-- C5 amended: the unrecognized vendor mode values are recorded in the
construction-time preset attribute, but the exposed preset-mode list is
unconditionally the pair none, eco, because the later property declaration
shadows the attribute-backed list. -/
theorem C5_amended_presets (d : TuyaDevice)
    (desc : TuyaClimateEntityDescription) :
    (∀ et, find_enum d [get_right_dpcode DPCode.MODE] true = some et →
      et.range.any (fun m => (tuyaToHa m).isNone) = true →
      (TuyaClimateEntity.init d desc)._attr_preset_modes =
        some (et.range.filter (fun m => (tuyaToHa m).isNone))) ∧
    TuyaClimateEntity.preset_modes = [PRESET_NONE, PRESET_ECO] := by
  refine ⟨?_, rfl⟩
  intro et hfe hany
  simp only [TuyaClimateEntity.init, hfe]
  rw [hvacFold_unknown]
  simp [filter_isEmpty_eq_not_any, hany]

/-- Witness for C5: on the xyz-only device the attribute records xyz while
the exposed list stays none, eco. -/
theorem C5_amended_witness :
    (TuyaClimateEntity.init devC5 descKT)._attr_preset_modes =
      some ["xyz"] ∧
    TuyaClimateEntity.preset_modes = [PRESET_NONE, PRESET_ECO] := by
  have h := (C5_amended_presets devC5 descKT).1 ⟨DPCode.MODE, ["xyz"]⟩ rfl rfl
  exact ⟨by simpa using h, (C5_amended_presets devC5 descKT).2⟩

/-- C4: when a mode enum resolves, the constructed supported-mode list is
off followed by the translation of every translatable permitted value plus
the category fallback exactly when some value is untranslatable, and every
translatable value leaves a reverse mapping entry for its host mode; when
no mode enum resolves but a switch data point does, the supported modes are
exactly off and the category fallback. -/
theorem C4_construction (d : TuyaDevice)
    (desc : TuyaClimateEntityDescription) :
    (∀ et, find_enum d [get_right_dpcode DPCode.MODE] true = some et →
      (TuyaClimateEntity.init d desc)._attr_hvac_modes =
        HVACMode.off :: (et.range.filterMap tuyaToHa ++
          (if et.range.any (fun m => (tuyaToHa m).isNone) then
            [desc.switch_only_hvac_mode] else [])) ∧
      (∀ m h, m ∈ et.range → tuyaToHa m = some h →
        ∃ m', ((TuyaClimateEntity.init d desc)._hvac_to_tuya).lookup h =
            some m' ∧ m' ∈ et.range ∧ tuyaToHa m' = some h)) ∧
    (find_enum d [get_right_dpcode DPCode.MODE] true = none →
      (find_dpcode d [get_right_dpcode DPCode.SWITCH] none true).isSome =
        true →
      (TuyaClimateEntity.init d desc)._attr_hvac_modes =
        [HVACMode.off, desc.switch_only_hvac_mode]) := by
  constructor
  · intro et hfe
    constructor
    · simp only [TuyaClimateEntity.init, hfe]
      rw [hvacFold_modes, hvacFold_unknown]
      simp only [List.nil_append, filter_isEmpty_eq_not_any]
      by_cases hany : et.range.any (fun m => (tuyaToHa m).isNone) <;>
        simp [hany]
    · intro m h hm htr
      have hsome := hvacFold_tt_mem et.range ([HVACMode.off], [], []) m h hm
        htr
      obtain ⟨m', hm'⟩ := Option.isSome_iff_exists.mp hsome
      have hgood := hvacFold_tt_good et.range et.range (fun x hx => hx)
        ([HVACMode.off], [], [])
        (by intro h2 m2 hl2; simp [List.lookup] at hl2) h m' hm'
      refine ⟨m', ?_, hgood.1, hgood.2⟩
      simp only [TuyaClimateEntity.init, hfe]
      exact hm'
  · intro hfe hsw
    simp [TuyaClimateEntity.init, hfe, hsw]

/-- Witness for C4: the two-value enum device gets off, cool and the
fallback cool again with the reverse mapping cool to cold; the switch-only
device gets exactly off and cool. -/
theorem C4_witness :
    (TuyaClimateEntity.init devC4 descKT)._attr_hvac_modes =
      [HVACMode.off, HVACMode.cool, HVACMode.cool] ∧
    (∃ m', ((TuyaClimateEntity.init devC4 descKT)._hvac_to_tuya).lookup
        HVACMode.cool = some m' ∧ m' ∈ etC4.range ∧
        tuyaToHa m' = some HVACMode.cool) ∧
    (TuyaClimateEntity.init devC4s descKT)._attr_hvac_modes =
      [HVACMode.off, HVACMode.cool] := by
  have h1 := (C4_construction devC4 descKT).1 etC4 rfl
  refine ⟨?_, h1.2 "cold" HVACMode.cool (by decide) rfl,
    (C4_construction devC4s descKT).2 rfl rfl⟩
  rw [h1.1]
  decide
